import Mathlib

/-!
Verification of the interactive PDB browser notebook
(src/6-projects/3D-visualization/browse-pdb.ipynb).

The notebook fetches a two-column table (resultCount, idList) of PDB
accession codes, and wires a viewer callback view3d to ipywidgets
controls.  We embed the data model and the callback shallowly:

* a fetched table row is a `Row` (resultCount, idList);
* the fetched table df is a `List Row` in fetch order;
* `iloc` embeds integer positional lookup df.iloc on the row axis,
  including negative indexing from the end, returning none where the
  library would raise an out-of-range error;
* `view3d` embeds the callback body: it looks up the row at position
  i - 1, records the fetch request (query string and doAssembly flag),
  the canvas size, the ordered list of rendering directives issued,
  and the caption lines it prints;
* `s_widget` embeds the slider IntSlider constructed with min 1 and
  max len(df).

Decimal literals of the source (0.6, 0.3, 0.8) are carried exactly as
integer counts of tenths.
-/

namespace BrowsePdb

/-- One row of the fetched table: the total record count at fetch time
and one PDB accession code from the idList column. -/
structure Row where
  resultCount : Nat
  idList : String
deriving DecidableEq, Repr

/-- Embeds pandas integer positional row lookup df.iloc[k]: a
nonnegative k selects position k, a negative k selects position
len(df) + k, and anything outside [-len(df), len(df)) raises, which we
model as none. -/
def iloc (df : List Row) (k : Int) : Option Row :=
  if 0 ≤ k then df.get? k.toNat
  else if 0 ≤ k + df.length then df.get? (k + df.length).toNat
  else none

/-- One rendering directive issued to the viewer.  The constructors
mirror the three viewer calls of the callback body: setStyle on all
atoms with a cartoon style, setStyle on the hetflag selection with a
stick style, and addSurface.  Numeric style parameters are in tenths. -/
inductive Directive where
  | setStyleAll (cartoonColor : String) (cartoonWidthTenths : Nat)
  | setStyleHet (hetflag : Bool) (stickRadiusTenths : Nat) (singleBond : Bool)
  | addSurface (surfaceType : String) (opacityTenths : Nat) (color : String)
deriving DecidableEq, Repr

/-- Whether a directive is one of the setStyle calls (as opposed to a
surface directive). -/
def Directive.isStyle : Directive → Bool
  | .setStyleAll _ _ => true
  | .setStyleHet _ _ _ => true
  | .addSurface _ _ _ => false

/-- The polymer style directive: cartoon colored by spectrum,
width 0.6. -/
def cartoonDirective : Directive := .setStyleAll "spectrum" 6

/-- The non-polymer style directive: hetflag selection rendered as
stick, radius 0.3, singleBond false. -/
def heteroDirective : Directive := .setStyleHet true 3 false

/-- The optional surface directive: a solvent-excluded surface at
opacity 0.8 colored lightblue. -/
def surfaceDirective : Directive := .addSurface "SES" 8 "lightblue"

/-- The one line the callback prints, naming the selected identifier. -/
def captionFor (pdb_id : String) : String :=
  "Click and drag mouse to rotate structure: PDB ID " ++ pdb_id

/-- The observable result of one callback invocation: the selected
identifier, the fetch request (query and doAssembly option), the
canvas dimensions, the ordered rendering directives, and the printed
caption lines. -/
structure ViewOutput where
  pdbId : String
  query : String
  doAssembly : Bool
  width : Nat
  height : Nat
  directives : List Directive
  captionLines : List String
deriving DecidableEq, Repr

/-- The viewer callback view3d(show_bio_assembly, show_surface, size, i)
over the captured table df.  It selects the row at position i - 1,
builds the fetch request from the identifier and the assembly flag,
issues the two fixed style directives, adds the surface directive when
show_surface is set, and prints one caption line.  A failing row
lookup (out of range) yields none. -/
def view3d (df : List Row) (show_bio_assembly show_surface : Bool)
    (size : Nat) (i : Int) : Option ViewOutput :=
  match iloc df (i - 1) with
  | none => none
  | some row =>
    some {
      pdbId := row.idList
      query := "pdb:" ++ row.idList
      doAssembly := show_bio_assembly
      width := size
      height := size
      directives := [cartoonDirective, heteroDirective] ++
        (if show_surface then [surfaceDirective] else [])
      captionLines := [captionFor row.idList]
    }

/-- The integer slider control: only its bounds matter for the claims. -/
structure Slider where
  min : Int
  max : Int
deriving DecidableEq, Repr

/-- A value is reachable through the slider exactly when it lies in
the closed interval [min, max], which the control clamps to by
construction. -/
def Slider.mem (s : Slider) (v : Int) : Bool :=
  decide (s.min ≤ v) && decide (v ≤ s.max)

/-- The slider constructed by view_structure:
IntSlider(min=1, max=len(df)). -/
def s_widget (df : List Row) : Slider :=
  { min := 1, max := (df.length : Int) }

/-- The four parameters of one callback invocation. -/
structure CallParams where
  show_bio_assembly : Bool
  show_surface : Bool
  size : Nat
  i : Int
deriving DecidableEq, Repr

/-- A session over a fixed fetched table: the interactive layer
re-invokes the callback once per control change, synchronously and in
order, with no state carried between invocations. -/
def runSession (df : List Row) (calls : List CallParams) : List (Option ViewOutput) :=
  calls.map (fun c => view3d df c.show_bio_assembly c.show_surface c.size c.i)

/-- The five head rows shown in the notebook output. -/
def demoList : List Row :=
  [⟨153836, "100D"⟩, ⟨153836, "101D"⟩, ⟨153836, "101M"⟩,
   ⟨153836, "102D"⟩, ⟨153836, "102L"⟩]

/-- The output record of a successful invocation, as a function of the
selected row and the parameters. -/
def outputFor (row : Row) (a s : Bool) (z : Nat) : ViewOutput :=
  { pdbId := row.idList
    query := "pdb:" ++ row.idList
    doAssembly := a
    width := z
    height := z
    directives := [cartoonDirective, heteroDirective] ++
      (if s then [surfaceDirective] else [])
    captionLines := [captionFor row.idList] }

theorem view3d_some (df : List Row) (a s : Bool) (z : Nat) (i : Int) (row : Row)
    (h : iloc df (i - 1) = some row) :
    view3d df a s z i = some (outputFor row a s z) := by
  unfold view3d outputFor
  rw [h]

theorem view3d_none (df : List Row) (a s : Bool) (z : Nat) (i : Int)
    (h : iloc df (i - 1) = none) : view3d df a s z i = none := by
  unfold view3d
  rw [h]

theorem iloc_of_bounds (df : List Row) (i : Int) (h1 : 1 ≤ i)
    (h2 : i ≤ (df.length : Int)) :
    ∃ row, df.get? (i - 1).toNat = some row ∧ iloc df (i - 1) = some row := by
  have hlt : (i - 1).toNat < df.length := by omega
  refine ⟨df.get ⟨_, hlt⟩, List.get?_eq_get hlt, ?_⟩
  rw [iloc, if_pos (by omega : (0 : Int) ≤ i - 1)]
  exact List.get?_eq_get hlt

end BrowsePdb

namespace BrowsePdb

/-- Claim C1: for every fetched list and every row index i with
1 ≤ i ≤ N, the callback selects the identifier at position i - 1 of
the list in fetch order: the fetch query uses it and the caption
equals the caption line for it. -/
theorem view3d_selects_ith_identifier (df : List Row) (a s : Bool) (z : Nat)
    (i : Int) (h1 : 1 ≤ i) (h2 : i ≤ (df.length : Int)) :
    ∃ row, df.get? (i - 1).toNat = some row ∧
      (view3d df a s z i).map ViewOutput.pdbId = some row.idList ∧
      (view3d df a s z i).map ViewOutput.query = some ("pdb:" ++ row.idList) ∧
      (view3d df a s z i).map ViewOutput.captionLines =
        some [captionFor row.idList] := by
  obtain ⟨row, hg, hi⟩ := iloc_of_bounds df i h1 h2
  refine ⟨row, hg, ?_, ?_, ?_⟩ <;>
    rw [view3d_some df a s z i row hi] <;> rfl

theorem view3d_selects_ith_identifier_witness :
    ∃ row, demoList.get? ((3 : Int) - 1).toNat = some row ∧
      (view3d demoList false false 750 3).map ViewOutput.pdbId = some row.idList ∧
      (view3d demoList false false 750 3).map ViewOutput.query =
        some ("pdb:" ++ row.idList) ∧
      (view3d demoList false false 750 3).map ViewOutput.captionLines =
        some [captionFor row.idList] :=
  view3d_selects_ith_identifier demoList false false 750 3 (by decide) (by decide)

/-- Claim C2: with all other parameters fixed, changing the surface
flag from false to true appends exactly one directive, the surface
directive, and the directives of the false invocation are exactly the
two base style directives, so they are left unchanged. -/
theorem surface_flag_adds_one_directive (df : List Row) (a : Bool) (z : Nat)
    (i : Int) (outF outT : ViewOutput)
    (hF : view3d df a false z i = some outF)
    (hT : view3d df a true z i = some outT) :
    outT.directives = outF.directives ++ [surfaceDirective] ∧
    outF.directives = [cartoonDirective, heteroDirective] := by
  cases hi : iloc df (i - 1) with
  | none =>
    rw [view3d_none df a false z i hi] at hF
    cases hF
  | some row =>
    rw [view3d_some df a false z i row hi] at hF
    rw [view3d_some df a true z i row hi] at hT
    injection hF with hF
    injection hT with hT
    subst hF
    subst hT
    exact ⟨rfl, rfl⟩

theorem surface_flag_adds_one_directive_witness :
    (outputFor ⟨153836, "100D"⟩ false true 750).directives =
      (outputFor ⟨153836, "100D"⟩ false false 750).directives ++ [surfaceDirective] ∧
    (outputFor ⟨153836, "100D"⟩ false false 750).directives =
      [cartoonDirective, heteroDirective] :=
  surface_flag_adds_one_directive demoList false 750 1
    (outputFor ⟨153836, "100D"⟩ false false 750)
    (outputFor ⟨153836, "100D"⟩ false true 750) (by rfl) (by rfl)

/-- Claim C3: the callback is a pure function of its parameters over a
fixed fetched list: in any session, two invocations with equal
parameters yield equal outputs (hence the same selected identifier and
the same caption), with no state carried between invocations. -/
theorem callback_stateless (df : List Row) (calls : List CallParams) (j k : Nat)
    (h : calls.get? j = calls.get? k) :
    (runSession df calls).get? j = (runSession df calls).get? k := by
  unfold runSession
  rw [List.get?_map, List.get?_map, h]

theorem callback_stateless_witness :
    (runSession demoList [⟨false, false, 750, 1⟩, ⟨false, false, 750, 1⟩]).get? 0 =
    (runSession demoList [⟨false, false, 750, 1⟩, ⟨false, false, 750, 1⟩]).get? 1 :=
  callback_stateless demoList [⟨false, false, 750, 1⟩, ⟨false, false, 750, 1⟩]
    0 1 (by rfl)

/-- Claim C4: every value reachable through the slider built with
min 1 and max N satisfies 1 ≤ v ≤ N, and neither 0 nor N + 1 is
reachable. -/
theorem slider_reachable_bounds (df : List Row) (v : Int)
    (h : (s_widget df).mem v = true) :
    (1 ≤ v ∧ v ≤ (df.length : Int)) ∧
    (s_widget df).mem 0 = false ∧
    (s_widget df).mem ((df.length : Int) + 1) = false := by
  simp only [Slider.mem, s_widget, Bool.and_eq_true, decide_eq_true_eq] at h
  refine ⟨h, ?_, ?_⟩ <;>
  · simp only [Slider.mem, s_widget, Bool.and_eq_false_iff, decide_eq_false_iff_not]
    omega

theorem slider_reachable_bounds_witness :
    ((1 : Int) ≤ 3 ∧ (3 : Int) ≤ (demoList.length : Int)) ∧
    (s_widget demoList).mem 0 = false ∧
    (s_widget demoList).mem ((demoList.length : Int) + 1) = false :=
  slider_reachable_bounds demoList 3 (by decide)

/-- Claim C5: for every successful invocation the style directives
issued are exactly the two fixed ones, cartoon colored by spectrum and
hetero-flagged residues as stick, independent of all four
parameters. -/
theorem two_fixed_style_directives (df : List Row) (a s : Bool) (z : Nat)
    (i : Int) (out : ViewOutput) (h : view3d df a s z i = some out) :
    out.directives.filter Directive.isStyle =
      [Directive.setStyleAll "spectrum" 6, Directive.setStyleHet true 3 false] := by
  cases hi : iloc df (i - 1) with
  | none =>
    rw [view3d_none df a s z i hi] at h
    cases h
  | some row =>
    rw [view3d_some df a s z i row hi] at h
    injection h with h
    subst h
    cases s <;> rfl

theorem two_fixed_style_directives_witness :
    (outputFor ⟨153836, "100D"⟩ false true 750).directives.filter Directive.isStyle =
      [Directive.setStyleAll "spectrum" 6, Directive.setStyleHet true 3 false] :=
  two_fixed_style_directives demoList false true 750 1
    (outputFor ⟨153836, "100D"⟩ false true 750) (by rfl)

/-- Claim C6: the fetch request is parameterized exactly by the
selected identifier (query "pdb:" ++ id) and the assembly flag
(doAssembly); varying the surface flag or the size changes neither the
query nor the doAssembly option. -/
theorem fetch_key_from_id_and_assembly (df : List Row) (a s s2 : Bool)
    (z z2 : Nat) (i : Int) (out out2 : ViewOutput)
    (h : view3d df a s z i = some out)
    (h2 : view3d df a s2 z2 i = some out2) :
    out.query = "pdb:" ++ out.pdbId ∧ out.doAssembly = a ∧
    out2.query = out.query ∧ out2.doAssembly = out.doAssembly := by
  cases hi : iloc df (i - 1) with
  | none =>
    rw [view3d_none df a s z i hi] at h
    cases h
  | some row =>
    rw [view3d_some df a s z i row hi] at h
    rw [view3d_some df a s2 z2 i row hi] at h2
    injection h with h
    injection h2 with h2
    subst h
    subst h2
    exact ⟨rfl, rfl, rfl, rfl⟩

theorem fetch_key_from_id_and_assembly_witness :
    (outputFor ⟨153836, "100D"⟩ true false 750).query =
      "pdb:" ++ (outputFor ⟨153836, "100D"⟩ true false 750).pdbId ∧
    (outputFor ⟨153836, "100D"⟩ true false 750).doAssembly = true ∧
    (outputFor ⟨153836, "100D"⟩ true true 300).query =
      (outputFor ⟨153836, "100D"⟩ true false 750).query ∧
    (outputFor ⟨153836, "100D"⟩ true true 300).doAssembly =
      (outputFor ⟨153836, "100D"⟩ true false 750).doAssembly :=
  fetch_key_from_id_and_assembly demoList true false true 750 300 1
    (outputFor ⟨153836, "100D"⟩ true false 750)
    (outputFor ⟨153836, "100D"⟩ true true 300) (by rfl) (by rfl)

/-- Claim C7: on the fetched list of 5 identifiers 100D, 101D, 101M,
102D, 102L, selecting index 3 displays 101M: the selected identifier
is 101M and the caption is the caption line for 101M, for every
setting of the flags and size. -/
theorem demo_index_three_selects_101M (a s : Bool) (z : Nat) :
    (view3d demoList a s z 3).map ViewOutput.pdbId = some "101M" ∧
    (view3d demoList a s z 3).map ViewOutput.captionLines =
      some [captionFor "101M"] := by
  exact ⟨rfl, rfl⟩

/-- Claim C8: every successful invocation prints exactly one caption
line, and that line contains the selected identifier. -/
theorem caption_single_line_names_id (df : List Row) (a s : Bool) (z : Nat)
    (i : Int) (out : ViewOutput) (h : view3d df a s z i = some out) :
    out.captionLines.length = 1 ∧
    ∃ p, out.captionLines = [p ++ out.pdbId] := by
  cases hi : iloc df (i - 1) with
  | none =>
    rw [view3d_none df a s z i hi] at h
    cases h
  | some row =>
    rw [view3d_some df a s z i row hi] at h
    injection h with h
    subst h
    exact ⟨rfl, "Click and drag mouse to rotate structure: PDB ID ", rfl⟩

theorem caption_single_line_names_id_witness :
    (outputFor ⟨153836, "100D"⟩ false false 750).captionLines.length = 1 ∧
    ∃ p, (outputFor ⟨153836, "100D"⟩ false false 750).captionLines =
      [p ++ (outputFor ⟨153836, "100D"⟩ false false 750).pdbId] :=
  caption_single_line_names_id demoList false false 750 1
    (outputFor ⟨153836, "100D"⟩ false false 750) (by rfl)

/-- Claim C9: on an empty fetched list the slider is built with min 1
and max 0, no value is reachable through it, and every callback
invocation fails (the row lookup is out of bounds for every index). -/
theorem empty_list_no_view (a s : Bool) (z : Nat) (i v : Int) :
    view3d [] a s z i = none ∧
    s_widget [] = { min := 1, max := 0 } ∧
    (s_widget []).mem v = false := by
  refine ⟨?_, rfl, ?_⟩
  · apply view3d_none
    unfold iloc
    split
    · simp
    · split
      · simp
      · rfl
  · simp only [Slider.mem, s_widget, Bool.and_eq_false_iff, decide_eq_false_iff_not,
      List.length_nil, Nat.cast_zero]
    omega

/-- Claim C10: supplying the out-of-range index 0 to the callback on a
non-empty list does not fail: the lookup at position 0 - 1 = -1
selects the last row by negative indexing, so index 0 behaves exactly
like index N. -/
theorem index_zero_selects_last (df : List Row) (a s : Bool) (z : Nat)
    (h : df ≠ []) :
    view3d df a s z 0 = view3d df a s z (df.length : Int) ∧
    (view3d df a s z 0).map ViewOutput.pdbId = df.getLast?.map Row.idList := by
  have hN : 1 ≤ df.length := List.length_pos.mpr h
  have hlt : df.length - 1 < df.length := by omega
  have hg : df.get? (df.length - 1) = some (df.get ⟨_, hlt⟩) := List.get?_eq_get hlt
  have e1 : iloc df ((0 : Int) - 1) = df.get? (df.length - 1) := by
    rw [iloc, if_neg (by omega), if_pos (by omega)]
    congr 1
    omega
  have e2 : iloc df (((df.length : Int)) - 1) = df.get? (df.length - 1) := by
    rw [iloc, if_pos (by omega)]
    congr 1
    omega
  constructor
  · rw [view3d_some df a s z 0 _ (e1.trans hg),
      view3d_some df a s z (df.length : Int) _ (e2.trans hg)]
  · rw [view3d_some df a s z 0 _ (e1.trans hg), List.getLast?_eq_get?, hg]
    rfl

theorem index_zero_selects_last_witness :
    view3d demoList false false 750 0 = view3d demoList false false 750 (demoList.length : Int) ∧
    (view3d demoList false false 750 0).map ViewOutput.pdbId =
      demoList.getLast?.map Row.idList :=
  index_zero_selects_last demoList false false 750 (by decide)

end BrowsePdb
